import Mathlib

/-
Verification of the core request pipeline of the 100pay.js SDK
(class Pay100 in src/index.ts): secret-key derivation and HMAC signing
(createSignature), header composition (getHeaders), the generic request
executor (request), error-message extraction (extractErrorMessage) and
the payment-verification facade (verify / PaymentVerificationError).

The JavaScript value universe reachable by this code is modelled by the
inductive type JValue below.  Objects that participate in a reference
cycle cannot be represented inductively; the constructor cyclicObj
models such an object by its directly observable fields, with JSON
serialization failing on it exactly as JSON.stringify throws at runtime.
The wall clock (Date.now) and the HMAC-SHA256 primitive from node:crypto
are external collaborators and enter the model as parameters
(a timestamp string and a function of key and message).
-/

set_option autoImplicit false

namespace Pay100Spec

/-- A JSON-like JavaScript runtime value.  Numbers are modelled as
integers (no claim depends on float behaviour beyond truthiness of 0).
`cyclicObj` stands for an object that contains a reference cycle:
its field list gives the directly observable own properties, and
JSON serialization of it fails. -/
inductive JValue where
  | null : JValue
  | bool : Bool → JValue
  | num : Int → JValue
  | str : String → JValue
  | arr : List JValue → JValue
  | obj : List (String × JValue) → JValue
  | cyclicObj : List (String × JValue) → JValue

/-- First-match lookup of an own property in an object's field list.
Objects produced by JSON parsing or object literals have unique keys,
so first-match agrees with JavaScript property lookup. -/
def lookupField : List (String × JValue) → String → Option JValue
  | [], _ => none
  | (k', v) :: rest, k => if k' = k then some v else lookupField rest k

/-- Property access `v[k]` combined with the `in` test: `some` exactly
when the key is present.  Non-objects have none of the properties this
code ever looks up (message, error, code, data, statusText, success,
headers), so they yield `none`. -/
def getField (v : JValue) (k : String) : Option JValue :=
  match v with
  | .obj fields => lookupField fields k
  | .cyclicObj fields => lookupField fields k
  | _ => none

/-- JavaScript truthiness of a value. -/
def truthy : JValue → Bool
  | .null => false
  | .bool b => b
  | .num n => n != 0
  | .str s => s != ""
  | .arr _ => true
  | .obj _ => true
  | .cyclicObj _ => true

/-- Whether `typeof v === "object"` holds in JavaScript (true for null,
arrays and objects). -/
def isObjectType : JValue → Bool
  | .null => true
  | .arr _ => true
  | .obj _ => true
  | .cyclicObj _ => true
  | _ => false

/-- Escape one character for a JSON string literal, as JSON.stringify
does for the characters that can appear in the strings of this
development. -/
def jsonEscapeChar (c : Char) : String :=
  if c = '"' then "\\\""
  else if c = '\\' then "\\\\"
  else if c = '\n' then "\\n"
  else if c = '\t' then "\\t"
  else if c = '\r' then "\\r"
  else String.singleton c

/-- Quote a string as a JSON string literal. -/
def jsonQuote (s : String) : String :=
  "\"" ++ String.join (s.toList.map jsonEscapeChar) ++ "\""

mutual

/-- JSON.stringify as used by createSignature and extractErrorMessage:
returns `none` when serialization throws, i.e. when a cyclic object is
reached anywhere in the value. -/
def jsonStringify : JValue → Option String
  | .null => some "null"
  | .bool b => some (if b then "true" else "false")
  | .num n => some (toString n)
  | .str s => some (jsonQuote s)
  | .arr xs =>
    match jsonStringifyList xs with
    | some ss => some ("[" ++ String.intercalate "," ss ++ "]")
    | none => none
  | .obj fields =>
    match jsonStringifyFields fields with
    | some ss => some ("\x7b" ++ String.intercalate "," ss ++ "\x7d")
    | none => none
  | .cyclicObj _ => none

/-- Serialize a list of array elements, failing if any element fails. -/
def jsonStringifyList : List JValue → Option (List String)
  | [] => some []
  | v :: rest =>
    match jsonStringify v, jsonStringifyList rest with
    | some s, some ss => some (s :: ss)
    | _, _ => none

/-- Serialize a list of object fields, failing if any value fails. -/
def jsonStringifyFields : List (String × JValue) → Option (List String)
  | [] => some []
  | (k, v) :: rest =>
    match jsonStringify v, jsonStringifyFields rest with
    | some s, some ss => some ((jsonQuote k ++ ":" ++ s) :: ss)
    | _, _ => none

end

example : jsonStringify (.obj []) = some "\x7b\x7d" := rfl

example : jsonStringify (.obj [("a", .num 1), ("b", .str "x")])
    = some "\x7b\"a\":1,\"b\":\"x\"\x7d" := rfl

example : jsonStringify (.arr [.cyclicObj []]) = none := rfl

/-- Split a list of characters on a separator, JavaScript
String.prototype.split semantics for a single-character separator:
every occurrence of the separator ends a segment and empty segments
are kept. -/
def splitCharsAux (sep : Char) : List Char → List Char → List (List Char)
  | [], acc => [acc.reverse]
  | c :: rest, acc =>
    if c = sep then acc.reverse :: splitCharsAux sep rest []
    else splitCharsAux sep rest (c :: acc)

/-- JavaScript `s.split(sep)` for a single-character separator. -/
def jsSplit (sep : Char) (s : String) : List String :=
  (splitCharsAux sep s.toList []).map (fun cs => String.mk cs)

/-- JavaScript `s.includes(sep)` for a single-character search string. -/
def jsIncludes (sep : Char) (s : String) : Bool :=
  s.toList.contains sep

example : jsSplit ';' "LIVE;SK;tok123" = ["LIVE", "SK", "tok123"] := rfl
example : jsSplit ';' "plainsecret" = ["plainsecret"] := rfl
example : jsSplit ';' "A;B;" = ["A", "B", ""] := rfl

/-- The configuration captured by the Pay100 constructor:
publicKey, optional secretKey and baseUrl (the default base URL is a
fixed production endpoint). -/
structure Config where
  publicKey : String
  secretKey : Option String
  baseUrl : String

/-- Whether `if (this.secretKey)` succeeds: the secret key is present
and non-empty (JavaScript truthiness of a string). -/
def hasSecretKey (cfg : Config) : Bool :=
  match cfg.secretKey with
  | some s => s != ""
  | none => false

/-- The signing secret derived in createSignature from the configured
secret key: if the key contains a ";" and splits into exactly three
";"-delimited parts (format STATUS;TYPE;TOKEN), the third part is used;
otherwise the key is used unchanged. -/
def derivedSigningSecret : Option String → Option String
  | none => none
  | some s =>
    if jsIncludes ';' s then
      let secretKeyParts := jsSplit ';' s
      if secretKeyParts.length = 3 then some (secretKeyParts.getD 2 "")
      else some s
    else some s

/-- Pay100.createSignature, with the wall clock and the HMAC-SHA256
primitive (hex digest) passed in as parameters `timestamp` and `hmac`
(hmac takes the key and then the message).  Returns the timestamp and
the signature over `timestamp ++ JSON.stringify(payload)`, or the
message of the error thrown: the "Secret key is required for signing"
error when the derived signing secret is absent or empty, and the
TypeError thrown by JSON.stringify on a cyclic payload. -/
def createSignature (secretKey : Option String) (timestamp : String)
    (hmac : String → String → String) (payload : JValue) :
    Except String (String × String) :=
  match derivedSigningSecret secretKey with
  | none => .error "Secret key is required for signing"
  | some signingSecret =>
    if signingSecret = "" then .error "Secret key is required for signing"
    else
      match jsonStringify payload with
      | some body => .ok (timestamp, hmac signingSecret (timestamp ++ body))
      | none => .error "Converting circular structure to JSON"

/-- The own enumerable entries contributed by spreading a value into an
object literal, as in ...(payload.headers): objects contribute their
fields, arrays and strings their indexed elements, primitives
nothing. -/
def spreadEntries : JValue → List (String × JValue)
  | .obj fields => fields
  | .cyclicObj fields => fields
  | .arr xs => (xs.enum.map fun p => (toString p.1, p.2))
  | .str s => (s.toList.enum.map fun p => (toString p.1, JValue.str (String.singleton p.2)))
  | _ => []

/-- The entries spread into the secret-mode header object by
`...(payload?.headers || \x7b\x7d)`: the entries of the payload's
`headers` field when that field is present and truthy, nothing
otherwise. -/
def headerSpreadEntries (payload : JValue) : List (String × JValue) :=
  match getField payload "headers" with
  | some h => if truthy h then spreadEntries h else []
  | none => []

/-- Pay100.getHeaders: with a (truthy) secret key configured it returns
the five authenticated headers followed by the spread of the payload's
`headers` field (later duplicate keys override earlier ones in
JavaScript; this development only reasons about key membership);
without one it returns the two public-mode headers.  An error thrown
by createSignature propagates. -/
def getHeaders (cfg : Config) (timestamp : String)
    (hmac : String → String → String) (payload : JValue) :
    Except String (List (String × JValue)) :=
  if hasSecretKey cfg then
    match createSignature cfg.secretKey timestamp hmac payload with
    | .error e => .error e
    | .ok (ts, signature) =>
      .ok ([("api-key", JValue.str cfg.publicKey),
            ("x-secret-key", JValue.str (cfg.secretKey.getD "")),
            ("x-timestamp", JValue.str ts),
            ("x-signature", JValue.str signature),
            ("Content-Type", JValue.str "application/json")]
           ++ headerSpreadEntries payload)
  else
    .ok [("api-key", JValue.str cfg.publicKey),
         ("Content-Type", JValue.str "application/json")]

/-- Whether a header key occurs in a header entry list. -/
def hasKey (k : String) (hs : List (String × JValue)) : Bool :=
  hs.any (fun e => e.1 == k)

/-- Strategy "Direct error message in data.message" of
extractErrorMessage: a `message` field holding a string. -/
def tryMessage (v : JValue) : Option String :=
  match getField v "message" with
  | some (.str m) => some m
  | _ => none

/-- Strategy "Error object with message property" of
extractErrorMessage: an `error` field that is a string, or a truthy
object whose `message` (or, failing that, `code`) is a string. -/
def tryError (v : JValue) : Option String :=
  match getField v "error" with
  | some (.str s) => some s
  | some e =>
    if truthy e && isObjectType e then
      match getField e "message" with
      | some (.str m) => some m
      | _ =>
        match getField e "code" with
        | some (.str c) => some ("Error code: " ++ c)
        | _ => none
    else none
  | none => none

/-- Strategy "Look for error in the data property" of
extractErrorMessage: a truthy object field `data` whose `message`, or
whose truthy object `error`'s `message`, is a string. -/
def tryData (v : JValue) : Option String :=
  match getField v "data" with
  | some d =>
    if truthy d && isObjectType d then
      match getField d "message" with
      | some (.str m) => some m
      | _ =>
        match getField d "error" with
        | some e =>
          if truthy e && isObjectType e then
            match getField e "message" with
            | some (.str m) => some m
            | _ => none
          else none
        | none => none
    else none
  | none => none

/-- Strategy "statusText from the response" of extractErrorMessage. -/
def tryStatusText (v : JValue) : Option String :=
  match getField v "statusText" with
  | some (.str s) => some s
  | _ => none

/-- Pay100.extractErrorMessage: a string is returned verbatim; a
non-object yields "Unknown error"; otherwise the strategies run in
order (message, error, data, statusText) and as a last resort the body
is serialized behind the prefix "Error details: ", with
"Unknown error occurred" when serialization throws. -/
def extractErrorMessage (v : JValue) : String :=
  match v with
  | .str s => s
  | .null => "Unknown error"
  | .bool _ => "Unknown error"
  | .num _ => "Unknown error"
  | _ =>
    match tryMessage v with
    | some m => m
    | none =>
      match tryError v with
      | some m => m
      | none =>
        match tryData v with
        | some m => m
        | none =>
          match tryStatusText v with
          | some m => m
          | none =>
            match jsonStringify v with
            | some s => "Error details: " ++ s
            | none => "Unknown error occurred"

/-- View a value as the string it holds, if it is a string. -/
def asString : JValue → Option String
  | .str s => some s
  | _ => none

/-- Step 3 of the spec's ordered extraction policy: "If it has a string
field message, return it." -/
def specStep3 (v : JValue) : Option String :=
  (getField v "message").bind asString

/-- Step 4 of the spec's ordered extraction policy: "if error is a
string, return it; if error is an object with string message, return
that; else if error is an object with string code, return
Error code: followed by the code." -/
def specStep4 (v : JValue) : Option String :=
  match getField v "error" with
  | none => none
  | some e =>
    match asString e with
    | some s => some s
    | none =>
      match (getField e "message").bind asString with
      | some m => some m
      | none =>
        match (getField e "code").bind asString with
        | some c => some ("Error code: " ++ c)
        | none => none

/-- Step 5 of the spec's ordered extraction policy: "if data.message is
a string, return it; else if data.error.message is a string, return
it." -/
def specStep5 (v : JValue) : Option String :=
  match getField v "data" with
  | none => none
  | some d =>
    match (getField d "message").bind asString with
    | some m => some m
    | none =>
      match getField d "error" with
      | some e => (getField e "message").bind asString
      | none => none

/-- Step 6 of the spec's ordered extraction policy: "if it has a string
field statusText, return it." -/
def specStep6 (v : JValue) : Option String :=
  (getField v "statusText").bind asString

/-- The Error Normalizer extraction policy exactly as the spec words
it: strings verbatim; non-objects to "Unknown error"; then the ordered
first-match-wins steps 3 to 6; then "Error details: " plus the JSON
serialization, falling back to "Unknown error occurred" when
serialization fails. -/
def specExtractMessage (v : JValue) : String :=
  match v with
  | .str s => s
  | .null => "Unknown error"
  | .bool _ => "Unknown error"
  | .num _ => "Unknown error"
  | _ =>
    match specStep3 v with
    | some m => m
    | none =>
      match specStep4 v with
      | some m => m
      | none =>
        match specStep5 v with
        | some m => m
        | none =>
          match specStep6 v with
          | some m => m
          | none =>
            match jsonStringify v with
            | some s => "Error details: " ++ s
            | none => "Unknown error occurred"

/-- HTTP methods accepted by Pay100.request. -/
inductive HttpMethod where
  | GET : HttpMethod
  | POST : HttpMethod
  | PUT : HttpMethod
  | DELETE : HttpMethod
deriving DecidableEq

/-- The axios invocation as built by the SDK: method, full URL, header
entries, request body (`data`, `none` for undefined) and query
parameters (`params`, `none` for undefined). -/
structure AxiosCall where
  method : HttpMethod
  url : String
  headers : List (String × JValue)
  data : Option JValue
  params : Option JValue

/-- What the transport (axios) reports back for a dispatched call:
a fulfilled response with a decoded body, an axios error carrying an
optional response body and an error message, or a non-axios runtime
error. -/
inductive TransportResult where
  | ok : JValue → TransportResult
  | axiosError : Option JValue → String → TransportResult
  | jsError : String → TransportResult

/-- The axios call constructed inside Pay100.request: URL is base URL
concatenated with the endpoint, headers come from getHeaders, and the
payload goes into the body for non-GET methods and into the query
parameters for GET.  An error thrown while building headers
propagates. -/
def buildCall (cfg : Config) (timestamp : String)
    (hmac : String → String → String) (method : HttpMethod)
    (endpoint : String) (payload : JValue) : Except String AxiosCall :=
  match getHeaders cfg timestamp hmac payload with
  | .error e => .error e
  | .ok headers =>
    .ok { method := method
          url := cfg.baseUrl ++ endpoint
          headers := headers
          data := if method = .GET then none else some payload
          params := if method = .GET then some payload else none }

/-- Pay100.request: builds the call, dispatches it through the
transport, and post-processes.  A fulfilled response whose body is an
object with a field success strictly equal to false raises
"API Request Failed: " plus the extracted message (the Error raised
inside the try block is rethrown unchanged by the catch since it is
not an axios error).  Any other fulfilled body is returned unmodified.
An axios error raises "API Request Failed: " plus the message
extracted from its response body when that body is truthy, and the
axios error's own message otherwise.  Non-axios errors are rethrown
unchanged. -/
def request (cfg : Config) (timestamp : String)
    (hmac : String → String → String) (method : HttpMethod)
    (endpoint : String) (payload : JValue)
    (transport : AxiosCall → TransportResult) : Except String JValue :=
  match buildCall cfg timestamp hmac method endpoint payload with
  | .error e => .error e
  | .ok call =>
    match transport call with
    | .ok body =>
      match getField body "success" with
      | some (.bool false) =>
        .error ("API Request Failed: " ++ extractErrorMessage body)
      | _ => .ok body
    | .axiosError respBody msg =>
      .error ("API Request Failed: " ++
        (match respBody with
         | some d => if truthy d then extractErrorMessage d else msg
         | none => msg))
    | .jsError msg => .error msg

/-- The PaymentVerificationError thrown by Pay100.verify: name and
status are fixed and data is the empty object. -/
structure PVError where
  name : String
  status : String
  data : JValue
  message : String

/-- Construct a PaymentVerificationError from a message, as its
constructor does. -/
def mkPVError (message : String) : PVError :=
  { name := "PaymentVerificationError"
    status := "error"
    data := JValue.obj []
    message := message }

/-- The IVerifyResponse shape returned by Pay100.verify: a status
string, a data value (JValue.null for the null data) and an optional
message field. -/
structure VerifyResult where
  status : String
  data : JValue
  message : Option String

/-- The payload carrying the transaction id that verify posts. -/
def verifyPayload (transactionId : String) : JValue :=
  JValue.obj [("transactionId", JValue.str transactionId)]

/-- The response shaping of Pay100.verify on a fulfilled response
body: falsy bodies produce the "Something went wrong" error result;
the two sentinel strings produce their error results; everything else
is a success whose data is the body when it is a truthy object and
null otherwise. -/
def verifyHandleBody (body : JValue) : VerifyResult :=
  if truthy body = false then
    { status := "error", data := JValue.null,
      message := some "Something went wrong, be sure you supplied a valid payment id." }
  else
    match body with
    | .str s =>
      if s = "Access Denied, Invalid KEY supplied" then
        { status := "error", data := JValue.null,
          message := some "Access Denied, Invalid KEY supplied" }
      else if s = "invalid payment id supplied" then
        { status := "error", data := JValue.null, message := none }
      else
        { status := "success", data := JValue.null, message := none }
    | _ =>
      { status := "success",
        data := if truthy body && isObjectType body then body else JValue.null,
        message := none }

/-- Pay100.verify: posts the transaction payload to the per-transaction
endpoint with headers from getHeaders, shapes a fulfilled body with
verifyHandleBody, and converts failures into a thrown
PaymentVerificationError: an axios error contributes its message when
non-empty and the fixed fallback otherwise; any other error (such as
one thrown while building headers) contributes its own message. -/
def verify (cfg : Config) (timestamp : String)
    (hmac : String → String → String) (transactionId : String)
    (transport : AxiosCall → TransportResult) :
    Except PVError VerifyResult :=
  let payload := verifyPayload transactionId
  match getHeaders cfg timestamp hmac payload with
  | .error e => .error (mkPVError e)
  | .ok headers =>
    let call : AxiosCall :=
      { method := .POST
        url := cfg.baseUrl ++ "/api/v1/pay/crypto/payment/" ++ transactionId
        headers := headers
        data := some payload
        params := none }
    match transport call with
    | .ok body => .ok (verifyHandleBody body)
    | .axiosError _ msg =>
      .error (mkPVError
        (if msg = "" then
          "Something went wrong, be sure you supplied a valid payment id."
         else msg))
    | .jsError msg => .error (mkPVError msg)

/-- A public-mode configuration used to instantiate theorems. -/
def cfgPub : Config :=
  { publicKey := "pk", secretKey := none, baseUrl := "https://api.100pay.co" }

/-- A secret-mode configuration used to instantiate theorems. -/
def cfgSecret : Config :=
  { publicKey := "pk", secretKey := some "sk", baseUrl := "https://api.100pay.co" }

/-- A secret-mode configuration whose key has the three-part format
with an empty third part. -/
def cfgThreePartEmpty : Config :=
  { publicKey := "pk", secretKey := some "LIVE;SK;", baseUrl := "https://api.100pay.co" }

/-- A concrete stand-in for the external HMAC primitive. -/
def hmacConst : String → String → String := fun _ _ => "signature"

/-- The headers getHeaders returns for cfgPub. -/
def pubHeaders : List (String × JValue) :=
  [("api-key", JValue.str "pk"), ("Content-Type", JValue.str "application/json")]

lemma splitCharsAux_of_not_mem (sep : Char) (l : List Char) (h : sep ∉ l) :
    ∀ acc, splitCharsAux sep l acc = [acc.reverse ++ l] := by
  induction l with
  | nil => intro acc; simp [splitCharsAux]
  | cons c rest ih =>
    intro acc
    rw [List.mem_cons, not_or] at h
    rw [splitCharsAux, if_neg (fun hc => h.1 hc.symm), ih h.2 (c :: acc),
      List.reverse_cons, List.append_assoc, List.singleton_append]

lemma jsSplit_of_not_includes {sep : Char} {s : String}
    (h : jsIncludes sep s = false) : jsSplit sep s = [s] := by
  have hmem : sep ∉ s.toList := by
    intro hm
    rw [jsIncludes] at h
    simp at h
    exact h hm
  rw [jsSplit, splitCharsAux_of_not_mem sep s.toList hmem []]
  simp

/-- C1: for every configured secret-key string s, if s splits on ";"
into exactly three parts the signing secret used as the HMAC key by
createSignature is the third part, and for any other s it is s
unchanged; whenever the derived secret is non-empty and the payload
serializes, the signature is the HMAC of timestamp plus serialized
payload under exactly that secret.  In particular "LIVE;SK;tok123"
signs with "tok123", "plainsecret" with "plainsecret" and "A;B;C;D"
with "A;B;C;D". -/
theorem secret_derivation_c1 (s : String) (ts : String)
    (hmac : String → String → String) (payload : JValue) :
    ((jsSplit ';' s).length = 3 →
      derivedSigningSecret (some s) = some ((jsSplit ';' s).getD 2 "")) ∧
    ((jsSplit ';' s).length ≠ 3 →
      derivedSigningSecret (some s) = some s) ∧
    (∀ sec body, derivedSigningSecret (some s) = some sec → sec ≠ "" →
      jsonStringify payload = some body →
      createSignature (some s) ts hmac payload
        = .ok (ts, hmac sec (ts ++ body))) ∧
    derivedSigningSecret (some "LIVE;SK;tok123") = some "tok123" ∧
    derivedSigningSecret (some "plainsecret") = some "plainsecret" ∧
    derivedSigningSecret (some "A;B;C;D") = some "A;B;C;D" := by
  refine ⟨?_, ?_, ?_, rfl, rfl, rfl⟩
  · intro h3
    by_cases hin : jsIncludes ';' s
    · simp [derivedSigningSecret, hin, h3]
    · rw [jsSplit_of_not_includes (Bool.eq_false_iff.mpr hin)] at h3
      simp at h3
  · intro hne
    by_cases hin : jsIncludes ';' s
    · simp [derivedSigningSecret, hin, hne]
    · simp [derivedSigningSecret, hin]
  · intro sec body hsec hne hbody
    rw [createSignature, hsec]
    simp [hne, hbody]

/-- Witness for C1 at the spec's own examples: the three-part key
"LIVE;SK;tok123" derives its third part, "plainsecret" stays
unchanged, and the HMAC key of a concrete signature is the derived
secret "tok123". -/
theorem secret_derivation_c1_witness :
    derivedSigningSecret (some "LIVE;SK;tok123")
        = some ((jsSplit ';' "LIVE;SK;tok123").getD 2 "") ∧
    derivedSigningSecret (some "plainsecret") = some "plainsecret" ∧
    createSignature (some "LIVE;SK;tok123") "5" hmacConst (JValue.obj [])
      = .ok ("5", hmacConst "tok123" ("5" ++ "\x7b\x7d")) :=
  ⟨(secret_derivation_c1 "LIVE;SK;tok123" "5" hmacConst (JValue.obj [])).1
      (by decide),
   (secret_derivation_c1 "plainsecret" "5" hmacConst (JValue.obj [])).2.1
      (by decide),
   (secret_derivation_c1 "LIVE;SK;tok123" "5" hmacConst
      (JValue.obj [])).2.2.1 "tok123" "\x7b\x7d" rfl (by decide) rfl⟩

lemma tryMessage_eq_specStep3 (v : JValue) : tryMessage v = specStep3 v := by
  rw [tryMessage, specStep3]
  cases h : getField v "message" with
  | none => rfl
  | some m => cases m <;> rfl

lemma tryStatusText_eq_specStep6 (v : JValue) :
    tryStatusText v = specStep6 v := by
  rw [tryStatusText, specStep6]
  cases h : getField v "statusText" with
  | none => rfl
  | some m => cases m <;> rfl

lemma tryError_eq_specStep4 (v : JValue) : tryError v = specStep4 v := by
  rw [tryError, specStep4]
  cases hge : getField v "error" with
  | none => rfl
  | some e =>
    cases e with
    | str s => rfl
    | null => rfl
    | bool b => simp [truthy, isObjectType, asString, getField]
    | num n => simp [truthy, isObjectType, asString, getField]
    | arr xs => rfl
    | obj fields =>
      cases hm : lookupField fields "message" with
      | none =>
        cases hc : lookupField fields "code" with
        | none => simp [getField, hm, hc, asString, truthy, isObjectType]
        | some c =>
          cases c <;> simp [getField, hm, hc, asString, truthy, isObjectType]
      | some m =>
        cases hc : lookupField fields "code" with
        | none =>
          cases m <;> simp [getField, hm, hc, asString, truthy, isObjectType]
        | some c =>
          cases c <;> cases m <;>
            simp [getField, hm, hc, asString, truthy, isObjectType]
    | cyclicObj fields =>
      cases hm : lookupField fields "message" with
      | none =>
        cases hc : lookupField fields "code" with
        | none => simp [getField, hm, hc, asString, truthy, isObjectType]
        | some c =>
          cases c <;> simp [getField, hm, hc, asString, truthy, isObjectType]
      | some m =>
        cases hc : lookupField fields "code" with
        | none =>
          cases m <;> simp [getField, hm, hc, asString, truthy, isObjectType]
        | some c =>
          cases c <;> cases m <;>
            simp [getField, hm, hc, asString, truthy, isObjectType]

lemma tryData_eq_specStep5 (v : JValue) : tryData v = specStep5 v := by
  rw [tryData, specStep5]
  cases hgd : getField v "data" with
  | none => rfl
  | some d =>
    cases d with
    | str s => simp [truthy, isObjectType, asString, getField]
    | null => rfl
    | bool b => simp [truthy, isObjectType, asString, getField]
    | num n => simp [truthy, isObjectType, asString, getField]
    | arr xs => rfl
    | obj fields =>
      cases hm : lookupField fields "message" with
      | none =>
        cases he : lookupField fields "error" with
        | none => simp [getField, hm, he, asString, truthy, isObjectType]
        | some e =>
          cases e with
          | obj fields2 =>
            cases hm2 : lookupField fields2 "message" with
            | none =>
              simp [getField, hm, he, hm2, asString, truthy, isObjectType]
            | some m2 =>
              cases m2 <;>
                simp [getField, hm, he, hm2, asString, truthy, isObjectType]
          | cyclicObj fields2 =>
            cases hm2 : lookupField fields2 "message" with
            | none =>
              simp [getField, hm, he, hm2, asString, truthy, isObjectType]
            | some m2 =>
              cases m2 <;>
                simp [getField, hm, he, hm2, asString, truthy, isObjectType]
          | _ => simp [getField, hm, he, asString, truthy, isObjectType]
      | some m =>
        cases he : lookupField fields "error" with
        | none =>
          cases m <;> simp [getField, hm, he, asString, truthy, isObjectType]
        | some e =>
          cases e with
          | obj fields2 =>
            cases hm2 : lookupField fields2 "message" with
            | none =>
              cases m <;>
                simp [getField, hm, he, hm2, asString, truthy, isObjectType]
            | some m2 =>
              cases m2 <;> cases m <;>
                simp [getField, hm, he, hm2, asString, truthy, isObjectType]
          | cyclicObj fields2 =>
            cases hm2 : lookupField fields2 "message" with
            | none =>
              cases m <;>
                simp [getField, hm, he, hm2, asString, truthy, isObjectType]
            | some m2 =>
              cases m2 <;> cases m <;>
                simp [getField, hm, he, hm2, asString, truthy, isObjectType]
          | _ =>
            cases m <;> simp [getField, hm, he, asString, truthy, isObjectType]
    | cyclicObj fields =>
      cases hm : lookupField fields "message" with
      | none =>
        cases he : lookupField fields "error" with
        | none => simp [getField, hm, he, asString, truthy, isObjectType]
        | some e =>
          cases e with
          | obj fields2 =>
            cases hm2 : lookupField fields2 "message" with
            | none =>
              simp [getField, hm, he, hm2, asString, truthy, isObjectType]
            | some m2 =>
              cases m2 <;>
                simp [getField, hm, he, hm2, asString, truthy, isObjectType]
          | cyclicObj fields2 =>
            cases hm2 : lookupField fields2 "message" with
            | none =>
              simp [getField, hm, he, hm2, asString, truthy, isObjectType]
            | some m2 =>
              cases m2 <;>
                simp [getField, hm, he, hm2, asString, truthy, isObjectType]
          | _ => simp [getField, hm, he, asString, truthy, isObjectType]
      | some m =>
        cases he : lookupField fields "error" with
        | none =>
          cases m <;> simp [getField, hm, he, asString, truthy, isObjectType]
        | some e =>
          cases e with
          | obj fields2 =>
            cases hm2 : lookupField fields2 "message" with
            | none =>
              cases m <;>
                simp [getField, hm, he, hm2, asString, truthy, isObjectType]
            | some m2 =>
              cases m2 <;> cases m <;>
                simp [getField, hm, he, hm2, asString, truthy, isObjectType]
          | cyclicObj fields2 =>
            cases hm2 : lookupField fields2 "message" with
            | none =>
              cases m <;>
                simp [getField, hm, he, hm2, asString, truthy, isObjectType]
            | some m2 =>
              cases m2 <;> cases m <;>
                simp [getField, hm, he, hm2, asString, truthy, isObjectType]
          | _ =>
            cases m <;> simp [getField, hm, he, asString, truthy, isObjectType]

/-- C3: extractErrorMessage implements exactly the spec's ordered
first-match-wins extraction policy (specExtractMessage), and on the
spec's two examples a top-level message wins over a nested
error.message and a lone error.code yields the "Error code:"
rendering. -/
theorem extract_policy_c3 :
    (∀ v : JValue, extractErrorMessage v = specExtractMessage v) ∧
    extractErrorMessage
      (JValue.obj [("message", JValue.str "A"),
                   ("error", JValue.obj [("message", JValue.str "B")])]) = "A" ∧
    extractErrorMessage
      (JValue.obj [("error", JValue.obj [("code", JValue.str "E1")])])
      = "Error code: E1" := by
  refine ⟨?_, rfl, rfl⟩
  intro v
  cases v with
  | str s => rfl
  | null => rfl
  | bool b => rfl
  | num n => rfl
  | arr xs =>
    rw [extractErrorMessage, specExtractMessage, tryMessage_eq_specStep3,
      tryError_eq_specStep4, tryData_eq_specStep5, tryStatusText_eq_specStep6] <;>
      simp
  | obj fields =>
    rw [extractErrorMessage, specExtractMessage, tryMessage_eq_specStep3,
      tryError_eq_specStep4, tryData_eq_specStep5, tryStatusText_eq_specStep6] <;>
      simp
  | cyclicObj fields =>
    rw [extractErrorMessage, specExtractMessage, tryMessage_eq_specStep3,
      tryError_eq_specStep4, tryData_eq_specStep5, tryStatusText_eq_specStep6] <;>
      simp

/-- C4: extractErrorMessage is total (it returns a string for every
value, cyclic objects included, and never throws), and when every
structured strategy misses and JSON serialization of the body fails,
as it does on a self-referential object, it returns the fixed fallback
"Unknown error occurred" instead of propagating the failure.  The
second conjunct is the spec's example, a cyclic object whose only
field refers back to itself. -/
theorem extract_total_c4 (v : JValue) :
    (tryMessage v = none → tryError v = none → tryData v = none →
      tryStatusText v = none → jsonStringify v = none →
      extractErrorMessage v = "Unknown error occurred") ∧
    extractErrorMessage (JValue.cyclicObj [("self", JValue.null)])
      = "Unknown error occurred" := by
  refine ⟨?_, rfl⟩
  intro h1 h2 h3 h4 h5
  cases v with
  | str s => simp [jsonStringify] at h5
  | null => simp [jsonStringify] at h5
  | bool b => simp [jsonStringify] at h5
  | num n => simp [jsonStringify] at h5
  | arr xs => rw [extractErrorMessage, h1, h2, h3, h4, h5] <;> simp
  | obj fields => rw [extractErrorMessage, h1, h2, h3, h4, h5] <;> simp
  | cyclicObj fields => rw [extractErrorMessage, h1, h2, h3, h4, h5] <;> simp

/-- Witness for C4 at a cyclic object with no recognized fields: every
strategy misses, serialization fails, and the fallback is returned. -/
theorem extract_total_c4_witness :
    extractErrorMessage (JValue.cyclicObj []) = "Unknown error occurred" :=
  (extract_total_c4 (JValue.cyclicObj [])).1 rfl rfl rfl rfl rfl

/-- C5: on a transport-success response, a body whose field success is
strictly the boolean false makes request raise
"API Request Failed: " plus the Error Normalizer extraction from that
body, and any other fulfilled body is returned unmodified. -/
theorem request_success_flag_c5 (cfg : Config) (ts : String)
    (hmac : String → String → String) (method : HttpMethod)
    (endpoint : String) (payload body : JValue) (call : AxiosCall)
    (hcall : buildCall cfg ts hmac method endpoint payload = .ok call) :
    (getField body "success" = some (JValue.bool false) →
      request cfg ts hmac method endpoint payload (fun _ => .ok body)
        = .error ("API Request Failed: " ++ extractErrorMessage body)) ∧
    (getField body "success" ≠ some (JValue.bool false) →
      request cfg ts hmac method endpoint payload (fun _ => .ok body)
        = .ok body) := by
  constructor
  · intro h
    rw [request, hcall]
    dsimp only
    simp only [h]
  · intro h
    rw [request, hcall]
    dsimp only
    cases hs : getField body "success" with
    | none => rfl
    | some x =>
      cases x with
      | bool b =>
        cases b with
        | false => exact absurd hs h
        | true => rfl
      | str s => rfl
      | null => rfl
      | num n => rfl
      | arr xs => rfl
      | obj f => rfl
      | cyclicObj f => rfl

/-- Witness for C5: a 200-status body with success false and message
"M" raises the prefixed error through a public-mode request; the same
request with a plain body returns it unmodified. -/
theorem request_success_flag_c5_witness :
    request cfgPub "0" hmacConst .POST "/x" (JValue.obj [])
        (fun _ => .ok (JValue.obj [("success", JValue.bool false),
                                   ("message", JValue.str "M")]))
      = .error ("API Request Failed: " ++ extractErrorMessage
          (JValue.obj [("success", JValue.bool false),
                       ("message", JValue.str "M")])) ∧
    request cfgPub "0" hmacConst .POST "/x" (JValue.obj [])
        (fun _ => .ok (JValue.obj [("a", JValue.num 1)]))
      = .ok (JValue.obj [("a", JValue.num 1)]) :=
  ⟨(request_success_flag_c5 cfgPub "0" hmacConst .POST "/x" (JValue.obj [])
      (JValue.obj [("success", JValue.bool false),
                   ("message", JValue.str "M")]) _ rfl).1 rfl,
   (request_success_flag_c5 cfgPub "0" hmacConst .POST "/x" (JValue.obj [])
      (JValue.obj [("a", JValue.num 1)]) _ rfl).2
      (by simp [getField, lookupField])⟩

/-- C6: the dispatched axios call carries the payload as query
parameters with an undefined body for GET, and as the request body
with undefined query parameters for every other method. -/
theorem request_dispatch_c6 (cfg : Config) (ts : String)
    (hmac : String → String → String) (method : HttpMethod)
    (endpoint : String) (payload : JValue) (call : AxiosCall)
    (hcall : buildCall cfg ts hmac method endpoint payload = .ok call) :
    (method = .GET → call.params = some payload ∧ call.data = none) ∧
    (method ≠ .GET → call.data = some payload ∧ call.params = none) := by
  rw [buildCall] at hcall
  cases hh : getHeaders cfg ts hmac payload with
  | error e => rw [hh] at hcall; exact absurd hcall (by simp)
  | ok hs =>
    rw [hh] at hcall
    simp only [Except.ok.injEq] at hcall
    subst hcall
    constructor
    · intro h
      simp [h]
    · intro h
      simp [h]

/-- Witness for C6: a GET to /x with payload (a: 1) puts the payload
in params and leaves the body undefined, and a POST does the
opposite. -/
theorem request_dispatch_c6_witness :
    ((Except.ok (AxiosCall.mk .GET ("https://api.100pay.co" ++ "/x")
        pubHeaders none (some (JValue.obj [("a", JValue.num 1)])))
      = buildCall cfgPub "0" hmacConst .GET "/x"
          (JValue.obj [("a", JValue.num 1)])) ∧
     (AxiosCall.mk .GET ("https://api.100pay.co" ++ "/x")
        pubHeaders none (some (JValue.obj [("a", JValue.num 1)]))).params
       = some (JValue.obj [("a", JValue.num 1)])) ∧
    (AxiosCall.mk .POST ("https://api.100pay.co" ++ "/x")
        pubHeaders (some (JValue.obj [("a", JValue.num 1)])) none).data
      = some (JValue.obj [("a", JValue.num 1)]) :=
  ⟨⟨rfl,
    ((request_dispatch_c6 cfgPub "0" hmacConst .GET "/x"
        (JValue.obj [("a", JValue.num 1)]) _ rfl).1 rfl).1⟩,
   ((request_dispatch_c6 cfgPub "0" hmacConst .POST "/x"
        (JValue.obj [("a", JValue.num 1)]) _ rfl).2 (by simp)).1⟩

lemma derivedSigningSecret_isSome (s : String) :
    ∃ t, derivedSigningSecret (some s) = some t := by
  rw [derivedSigningSecret]
  by_cases h1 : jsIncludes ';' s
  · rw [if_pos h1]
    dsimp only
    by_cases h2 : (jsSplit ';' s).length = 3
    · rw [if_pos h2]; exact ⟨_, rfl⟩
    · rw [if_neg h2]; exact ⟨_, rfl⟩
  · rw [if_neg h1]; exact ⟨_, rfl⟩

/-- C2 counterexample: under one fixed secret-mode configuration, the
key set of the headers returned by getHeaders changes with the
payload: a payload whose `headers` field carries an x-custom entry
makes "x-custom" appear in the result, while the empty payload does
not, so the header map is not fully determined by whether a secret key
is configured. -/
theorem headers_keys_c2_counterexample :
    (getHeaders cfgSecret "0" hmacConst (JValue.obj [])).map
        (hasKey "x-custom") = .ok false ∧
    (getHeaders cfgSecret "0" hmacConst
        (JValue.obj [("headers",
          JValue.obj [("x-custom", JValue.str "1")])])).map
        (hasKey "x-custom") = .ok true :=
  ⟨rfl, rfl⟩

/-- C2 amended: a non-empty secret key is configured if and only if
"x-signature" is present in the returned headers; and the header keys
are exactly the five fixed authenticated keys plus the keys spread
from the payload's own `headers` field in secret mode (so keys can
vary with the payload only through that field), and exactly api-key
and Content-Type in public mode. -/
theorem headers_keys_c2_amended (cfg : Config) (ts : String)
    (hmac : String → String → String) (payload : JValue)
    (hs : List (String × JValue))
    (h : getHeaders cfg ts hmac payload = .ok hs) :
    (hasSecretKey cfg = true ↔ hasKey "x-signature" hs = true) ∧
    (∀ k : String, hasKey k hs = true ↔
      (if hasSecretKey cfg = true then
        (k = "api-key" ∨ k = "x-secret-key" ∨ k = "x-timestamp" ∨
         k = "x-signature" ∨ k = "Content-Type" ∨
         (headerSpreadEntries payload).any (fun e => e.1 == k) = true)
       else (k = "api-key" ∨ k = "Content-Type"))) := by
  rw [getHeaders] at h
  by_cases hsk : hasSecretKey cfg
  · rw [if_pos hsk] at h
    cases hcs : createSignature cfg.secretKey ts hmac payload with
    | error e => rw [hcs] at h; exact absurd h (by simp)
    | ok p =>
      obtain ⟨ts2, sig⟩ := p
      rw [hcs] at h
      simp only [Except.ok.injEq] at h
      subst h
      constructor
      · simp [hsk, hasKey]
      · intro k
        simp only [hsk, if_pos]
        simp [hasKey, List.any_append, beq_iff_eq, @eq_comm String k, or_assoc]
  · rw [if_neg hsk] at h
    simp only [Except.ok.injEq] at h
    subst h
    constructor
    · simp [hsk, hasKey]
    · intro k
      simp [hsk, hasKey, beq_iff_eq, @eq_comm String k]

/-- Witness for C2 amended at a public-mode configuration and empty
payload: no secret key, no x-signature header. -/
theorem headers_keys_c2_amended_witness :
    hasSecretKey cfgPub = true ↔ hasKey "x-signature" pubHeaders = true :=
  (headers_keys_c2_amended cfgPub "0" hmacConst (JValue.obj [])
    pubHeaders rfl).1

/-- C7 counterexample: the configured secret key "LIVE;SK;" is truthy,
so the Header Builder does invoke the Signer, and the Signer throws
the "Secret key is required for signing" error because the derived
third part is empty: the error path is reachable with a configured
secret key. -/
theorem signing_guard_c7_counterexample :
    hasSecretKey cfgThreePartEmpty = true ∧
    createSignature cfgThreePartEmpty.secretKey "0" hmacConst
        (JValue.obj []) = .error "Secret key is required for signing" ∧
    getHeaders cfgThreePartEmpty "0" hmacConst (JValue.obj [])
      = .error "Secret key is required for signing" :=
  ⟨rfl, rfl, rfl⟩

/-- C7 amended: getHeaders invokes createSignature only when a truthy
secret key is configured (otherwise it returns the public-mode
headers without signing), and createSignature throws the
"Secret key is required for signing" error exactly when the derived
signing secret is the empty string, which a configured key reaches
only in the three-part format with an empty third part. -/
theorem signing_guard_c7_amended (cfg : Config) (ts : String)
    (hmac : String → String → String) (payload : JValue) (s : String) :
    (hasSecretKey cfg = false →
      getHeaders cfg ts hmac payload
        = .ok [("api-key", JValue.str cfg.publicKey),
               ("Content-Type", JValue.str "application/json")]) ∧
    (createSignature (some s) ts hmac payload
        = .error "Secret key is required for signing"
      ↔ derivedSigningSecret (some s) = some "") := by
  constructor
  · intro hf
    rw [getHeaders, if_neg (by simp [hf])]
  · obtain ⟨sec, hsec⟩ := derivedSigningSecret_isSome s
    rw [createSignature, hsec]
    by_cases he : sec = ""
    · subst he
      simp [hsec]
    · simp only [if_neg he, hsec, Option.some.injEq]
      cases hj : jsonStringify payload with
      | some body => simp [he]
      | none => simp [he]

/-- Witness for C7 amended: with no secret key configured, getHeaders
returns the public headers and never reaches the Signer; and the
well-formed key "LIVE;SK;tok123" does not throw. -/
theorem signing_guard_c7_amended_witness :
    getHeaders cfgPub "0" hmacConst (JValue.obj [])
      = .ok [("api-key", JValue.str cfgPub.publicKey),
             ("Content-Type", JValue.str "application/json")] ∧
    ¬ createSignature (some "LIVE;SK;tok123") "0" hmacConst (JValue.obj [])
        = .error "Secret key is required for signing" :=
  ⟨(signing_guard_c7_amended cfgPub "0" hmacConst (JValue.obj []) "x").1 rfl,
   fun h =>
     absurd
       ((signing_guard_c7_amended cfgPub "0" hmacConst (JValue.obj [])
         "LIVE;SK;tok123").2.mp h)
       (by decide)⟩

/-- C8: for every transaction id, a transport-level success whose body
is empty/falsy makes verify return, without throwing, the structured
error result with null data and the fixed "Something went wrong"
message. -/
theorem verify_empty_body_c8 (cfg : Config) (ts : String)
    (hmac : String → String → String) (transactionId : String)
    (body : JValue) (hs : List (String × JValue))
    (hh : getHeaders cfg ts hmac (verifyPayload transactionId) = .ok hs)
    (hb : truthy body = false) :
    verify cfg ts hmac transactionId (fun _ => .ok body)
      = .ok { status := "error", data := JValue.null,
              message := some
                "Something went wrong, be sure you supplied a valid payment id." } := by
  rw [verify]
  rw [hh]
  dsimp only
  have hvb : verifyHandleBody body
      = { status := "error", data := JValue.null,
          message := some
            "Something went wrong, be sure you supplied a valid payment id." } := by
    cases body with
    | null => rfl
    | bool b => rw [verifyHandleBody, if_pos hb]; simp
    | num n => rw [verifyHandleBody, if_pos hb]; simp
    | str s => rw [verifyHandleBody, if_pos hb]
    | arr xs => simp [truthy] at hb
    | obj f => simp [truthy] at hb
    | cyclicObj f => simp [truthy] at hb
  rw [hvb]

/-- Witness for C8 at a null body over a public-mode configuration. -/
theorem verify_empty_body_c8_witness :
    verify cfgPub "0" hmacConst "tx1" (fun _ => .ok JValue.null)
      = .ok { status := "error", data := JValue.null,
              message := some
                "Something went wrong, be sure you supplied a valid payment id." } :=
  verify_empty_body_c8 cfgPub "0" hmacConst "tx1" JValue.null
    pubHeaders rfl rfl

/-- C9: for every transaction id, a transport-level (axios) failure
inside verify is converted into a thrown PaymentVerificationError
carrying status "error" and empty data, whose message is the transport
error's message when non-empty and the fixed fallback otherwise; the
failure is never surfaced as a returned value. -/
theorem verify_transport_error_c9 (cfg : Config) (ts : String)
    (hmac : String → String → String) (transactionId : String)
    (respBody : Option JValue) (msg : String) (hs : List (String × JValue))
    (hh : getHeaders cfg ts hmac (verifyPayload transactionId) = .ok hs) :
    verify cfg ts hmac transactionId (fun _ => .axiosError respBody msg)
      = .error { name := "PaymentVerificationError", status := "error",
                 data := JValue.obj [],
                 message := if msg = "" then
                   "Something went wrong, be sure you supplied a valid payment id."
                 else msg } := by
  rw [verify]
  rw [hh]
  rfl

/-- Witness for C9: a network failure with message "Network Error"
throws the PaymentVerificationError carrying that message. -/
theorem verify_transport_error_c9_witness :
    verify cfgPub "0" hmacConst "tx1"
        (fun _ => .axiosError none "Network Error")
      = .error { name := "PaymentVerificationError", status := "error",
                 data := JValue.obj [],
                 message := if ("Network Error" : String) = "" then
                   "Something went wrong, be sure you supplied a valid payment id."
                 else "Network Error" } :=
  verify_transport_error_c9 cfgPub "0" hmacConst "tx1" none
    "Network Error" pubHeaders rfl

/-- C10 counterexample: the empty string is a string body other than
the two sentinel strings, yet verify returns the falsy-body error
result, not the success result with null data that the claim
predicts. -/
theorem verify_string_body_c10_counterexample :
    verify cfgPub "0" hmacConst "tx1" (fun _ => .ok (JValue.str ""))
      = .ok { status := "error", data := JValue.null,
              message := some
                "Something went wrong, be sure you supplied a valid payment id." } ∧
    ¬ verify cfgPub "0" hmacConst "tx1" (fun _ => .ok (JValue.str ""))
        = .ok { status := "success", data := JValue.null, message := none } := by
  constructor
  · rfl
  · intro h
    rw [show verify cfgPub "0" hmacConst "tx1" (fun _ => .ok (JValue.str ""))
        = .ok { status := "error", data := JValue.null,
                message := some
                  "Something went wrong, be sure you supplied a valid payment id." }
      from rfl] at h
    simp at h

/-- C10 amended: for every fulfilled response whose body is a
non-empty string other than the two sentinel strings, verify returns
the success result with null data. -/
theorem verify_string_body_c10_amended (cfg : Config) (ts : String)
    (hmac : String → String → String) (transactionId : String)
    (s : String) (hs : List (String × JValue))
    (hh : getHeaders cfg ts hmac (verifyPayload transactionId) = .ok hs)
    (h1 : s ≠ "")
    (h2 : s ≠ "Access Denied, Invalid KEY supplied")
    (h3 : s ≠ "invalid payment id supplied") :
    verify cfg ts hmac transactionId (fun _ => .ok (JValue.str s))
      = .ok { status := "success", data := JValue.null, message := none } := by
  rw [verify]
  rw [hh]
  dsimp only
  rw [verifyHandleBody, if_neg (by simp [truthy, h1])]
  rw [if_neg h2, if_neg h3]

/-- Witness for C10 amended at the unrecognized server text "weird
server error". -/
theorem verify_string_body_c10_amended_witness :
    verify cfgPub "0" hmacConst "tx1"
        (fun _ => .ok (JValue.str "weird server error"))
      = .ok { status := "success", data := JValue.null, message := none } :=
  verify_string_body_c10_amended cfgPub "0" hmacConst "tx1"
    "weird server error" pubHeaders rfl (by decide) (by decide) (by decide)

end Pay100Spec
